import Mathlib

/-!
Verification of wiex (src/index.ts): a tool that checks a command is
resolvable on the host, spawns it with an augmented PATH, relays its
standard streams, and interprets its lifecycle events into log lines and
a termination status.

The embedding below follows the source closely.  `wiexRun` models the
synchronous body of the async function `wiex` (lines 42-93): it runs to
completion without awaiting anything, so the promise returned by `wiex`
always resolves; the event handlers it attaches are modelled as separate
pure functions from the event payload to the observable actions the
handler performs (`HandlerAction`).  `parseArgs` models the argument
scan of `cli` (lines 96-105).
-/

namespace Wiex

/-- Log severities exposed by the logger capability. -/
inductive LogLevel
  | info
  | warn
  | error
deriving DecidableEq

/-- One emitted log line: a severity and a message. -/
structure LogLine where
  level : LogLevel
  message : String
deriving DecidableEq

/-- Settlement of a JavaScript promise. -/
inductive Settle
  | resolve
  | reject
deriving DecidableEq

/-- A call to spawn: the program string and the argument vector. -/
structure SpawnCall where
  program : String
  args : List String
deriving DecidableEq

/-- Host process environment: variable name to optional value. -/
abbrev Env := String → Option String

/-- JavaScript template-literal stringification of a possibly undefined
value: an undefined variable prints as the text "undefined". -/
def templateStr (o : Option String) : String := o.getD "undefined"

/-- JavaScript falsiness of an optional string: undefined and the empty
string are falsy (the test on line 47 is a truthiness test). -/
def isFalsy (o : Option String) : Bool :=
  match o with
  | none => true
  | some s => s == ""

/-- The warning emitted when WIEX_PATH is falsy (line 48). -/
def wiexPathWarning : String := "$WIEX_PATH is not set, so wiex not expand $PATH"

/-- The error message built on line 51 for an unresolvable command. -/
def commandNotExistErrorMessage (command : String) : String :=
  "Error: " ++ command ++ " not found"

/-- The observable actions one event handler performs when it fires: the
log lines it emits, an assignment to the mutable host exitCode if any,
the promise it constructs (which is detached: the handler neither
returns it to the caller of wiex nor awaits it), and a hard host process
exit if any. -/
structure HandlerAction where
  logs : List LogLine
  exitCodeSet : Option Int
  promiseMade : Option Settle
  hostExit : Option Nat
deriving DecidableEq

/-- Handler attached to the close event of the lookup process (lines
54-59).  The strict and verbose options are in scope in the closure but
unused on this path: the branch always logs via the plain error level
and always exits with status 1.  Exit statuses of a process are
non-negative, so the source test `code > 0` is `c > 0` on Nat. -/
def resolverOnClose (_strict _verbose : Bool) (command : String)
    (code : Option Nat) : HandlerAction :=
  match code with
  | none => ⟨[⟨.error, commandNotExistErrorMessage command⟩], none, none, some 1⟩
  | some c =>
      if 0 < c then
        ⟨[⟨.error, commandNotExistErrorMessage command⟩], none, none, some 1⟩
      else
        ⟨[], none, none, none⟩

/-- Handler attached to the error event of the lookup process (lines
60-63): the lookup failed to launch. -/
def resolverOnError (_strict _verbose : Bool) (command : String) : HandlerAction :=
  ⟨[⟨.error, commandNotExistErrorMessage command⟩], none, none, some 1⟩

/-- The catch branch around the lookup spawn (lines 64-67). -/
def resolverSpawnCatch (_strict _verbose : Bool) (command : String) : HandlerAction :=
  ⟨[⟨.error, commandNotExistErrorMessage command⟩], none, none, some 1⟩

/-- The severity selected on line 43: `errorIfStrictOrWarn` is the
logger error operation when strict, the warn operation otherwise. -/
def errorIfStrictOrWarnLevel (strict : Bool) : LogLevel :=
  if strict then .error else .warn

/-- The settlement of the promise built by `rejectIfStrictOrResolve`
(line 44): a rejected promise when strict, a resolved one otherwise.
The handlers call this function and discard the promise it returns. -/
def rejectIfStrictOrResolve (strict : Bool) : Settle :=
  if strict then .reject else .resolve

/-- Handler for the exit event of the child (lines 75-83).  A non-null
code is written to the host exitCode and a resolved promise is built
(line 78, discarded); a null code logs "exit code is unknown" at the
strict-selected severity and builds the strict-selected promise. -/
def procOnExit (strict : Bool) (code : Option Int) : HandlerAction :=
  match code with
  | some c => ⟨[], some c, some .resolve, none⟩
  | none =>
      ⟨[⟨errorIfStrictOrWarnLevel strict, "exit code is unknown"⟩], none,
        some (rejectIfStrictOrResolve strict), none⟩

/-- Handler for the disconnect event of the child (lines 84-87). -/
def procOnDisconnect (strict : Bool) (pid : Nat) : HandlerAction :=
  ⟨[⟨errorIfStrictOrWarnLevel strict,
      "process " ++ toString pid ++ " disconnected."⟩],
    none, some (rejectIfStrictOrResolve strict), none⟩

/-- Handler for the close event of the child (lines 88-92): one info
line when verbose, nothing otherwise; no other action. -/
def procOnClose (verbose : Bool) (pid : Nat) : HandlerAction :=
  ⟨if verbose then [⟨.info, "process " ++ toString pid ++ " closed."⟩] else [],
    none, none, none⟩

/-- Result of the synchronous body of `wiex` (lines 42-93): the log
lines it emits directly, the two spawn calls it makes, the environment
given to the child, the host environment after the body ran (the source
never assigns to process.env, so it is the input environment), whether
the body itself exits the host process (it never does), and the
settlement of the promise `wiex` returns (the async body completes
without awaiting and without throwing on this path, so it resolves). -/
structure WiexRun where
  logs : List LogLine
  resolverCall : SpawnCall
  childCall : SpawnCall
  childEnv : Env
  hostEnvAfter : Env
  hostExit : Option Nat
  returnSettle : Settle

/-- The synchronous body of `wiex`: destructure WIEX_PATH and PATH from
the environment (line 46), warn if WIEX_PATH is falsy (lines 47-49),
spawn the lookup as the single program string "where " ++ command with
no argument vector (line 53), and spawn the child with the inherited
environment in which PATH is replaced by the template literal
PATH ++ ":" ++ WIEX_PATH, both parts stringified (line 69). -/
def wiexRun (command : String) (commandArgs : List String) (env : Env)
    (_strict _verbose : Bool) : WiexRun :=
  let wiexPath := env "WIEX_PATH"
  let path := env "PATH"
  { logs := if isFalsy wiexPath then [⟨.warn, wiexPathWarning⟩] else []
    resolverCall := ⟨"where " ++ command, []⟩
    childCall := ⟨command, commandArgs⟩
    childEnv := fun k =>
      if k = "PATH" then some (templateStr path ++ ":" ++ templateStr wiexPath)
      else env k
    hostEnvAfter := env
    hostExit := none
    returnSettle := .resolve }

/-- The recognized tool flags (line 19). -/
def WIEX_OPTIONS : List String := ["--version", "--strict", "--verbose", "--help"]

/-- Result of the argument scan of `cli` (lines 98-105).  The source
stores the flags as object keys (so duplicates collapse); here they are
recorded as the list of flag tokens in scan order, which the claims do
not inspect. -/
structure CliParse where
  wiexFlags : List String
  command : Option String
  commandArgs : Option (List String)
deriving DecidableEq

/-- The reduce with early break of `cli` (lines 98-105): tokens are
scanned left to right; each token in WIEX_OPTIONS is collected as a tool
flag; the first other token stops the scan (the splice empties the rest
of the iterated copy), becomes the command, and the remaining tokens of
the original list become the command arguments verbatim. -/
def parseArgs : List String → CliParse
  | [] => ⟨[], none, none⟩
  | a :: rest =>
    if a ∈ WIEX_OPTIONS then
      let p := parseArgs rest
      ⟨a :: p.wiexFlags, p.command, p.commandArgs⟩
    else
      ⟨[], some a, some rest⟩

/-- A concrete host environment with PATH set and WIEX_PATH unset. -/
def envPathOnly : Env := fun k => if k = "PATH" then some "/usr/bin" else none

/-- A concrete host environment with PATH, WIEX_PATH and one other
variable set. -/
def envFull : Env := fun k =>
  if k = "PATH" then some "/usr/bin"
  else if k = "WIEX_PATH" then some "/mnt/c/Users/alice/.cargo/bin"
  else if k = "HOME" then some "/home/alice"
  else none

/-- C1: whenever the host lookup reports a non-zero status, a null
status, or fails to launch (error event or synchronous throw), the
handler emits exactly the one error-level line
"Error: command not found" and exits the host process with status 1,
for every value of the strict and verbose options. -/
theorem resolver_failure_logs_and_exits_1 (command : String)
    (strict verbose : Bool) (code : Option Nat)
    (h : code = none ∨ ∃ c, code = some c ∧ c ≠ 0) :
    resolverOnClose strict verbose command code =
        ⟨[⟨.error, commandNotExistErrorMessage command⟩], none, none, some 1⟩ ∧
      resolverOnError strict verbose command =
        ⟨[⟨.error, commandNotExistErrorMessage command⟩], none, none, some 1⟩ ∧
      resolverSpawnCatch strict verbose command =
        ⟨[⟨.error, commandNotExistErrorMessage command⟩], none, none, some 1⟩ := by
  refine ⟨?_, rfl, rfl⟩
  rcases h with h | ⟨c, hc, hne⟩
  · subst h; rfl
  · subst hc
    simp [resolverOnClose, Nat.pos_of_ne_zero hne]

theorem resolver_failure_logs_and_exits_1_witness :
    (((some 1 : Option Nat) = none ∨ ∃ c, (some 1 : Option Nat) = some c ∧ c ≠ 0) ∧
      (resolverOnClose true false "missing.exe" (some 1) =
          ⟨[⟨.error, commandNotExistErrorMessage "missing.exe"⟩], none, none, some 1⟩ ∧
        resolverOnError true false "missing.exe" =
          ⟨[⟨.error, commandNotExistErrorMessage "missing.exe"⟩], none, none, some 1⟩ ∧
        resolverSpawnCatch true false "missing.exe" =
          ⟨[⟨.error, commandNotExistErrorMessage "missing.exe"⟩], none, none, some 1⟩)) :=
  ⟨Or.inr ⟨1, rfl, one_ne_zero⟩,
    resolver_failure_logs_and_exits_1 "missing.exe" true false (some 1)
      (Or.inr ⟨1, rfl, one_ne_zero⟩)⟩

/-- C2: when the exit event carries a non-null code c with 0 ≤ c, the
handler sets the host exitCode to c and logs nothing, in both lenient
and strict mode, and the promise returned by the wiex call resolves. -/
theorem exit_code_propagated (strict verbose : Bool) (c : Int) (hc : 0 ≤ c)
    (command : String) (commandArgs : List String) (env : Env) :
    procOnExit strict (some c) = ⟨[], some c, some .resolve, none⟩ ∧
      (wiexRun command commandArgs env strict verbose).returnSettle =
        .resolve :=
  ⟨rfl, rfl⟩

theorem exit_code_propagated_witness :
    ((0 : Int) ≤ 5 ∧
      (procOnExit true (some 5) = ⟨[], some 5, some .resolve, none⟩ ∧
        (wiexRun "cargo.exe" ["--version"] (fun _ => none) true false).returnSettle =
          Settle.resolve)) :=
  ⟨by decide,
    exit_code_propagated true false 5 (by decide) "cargo.exe" ["--version"]
      (fun _ => none)⟩

/-- C3 (code bug, evaluated at pid 42): the disconnect handler logs the
same text "process 42 disconnected." at warn level when lenient and at
error level when strict, and in strict mode it constructs a rejected
promise — but that promise is detached (the handler discards it), and
the promise the wiex call itself returned has already resolved when the
async body completed, so the invocation call still settles successfully
even in strict mode, contrary to the claim that it rejects. -/
theorem strict_disconnect_call_still_resolves :
    (procOnDisconnect false 42).logs =
        [⟨.warn, "process 42 disconnected."⟩] ∧
      (procOnDisconnect true 42).logs =
        [⟨.error, "process 42 disconnected."⟩] ∧
      (procOnDisconnect true 42).promiseMade = some .reject ∧
      (wiexRun "flaky.exe" [] (fun _ => none) true false).returnSettle =
        Settle.resolve :=
  ⟨rfl, rfl, rfl, rfl⟩

/-- C4 (code bug, evaluated at PATH = "/usr/bin", WIEX_PATH unset): the
template literal on line 69 stringifies the unset WIEX_PATH as the text
"undefined", so the child receives PATH = "/usr/bin:undefined", not the
inherited value unchanged. -/
theorem unset_wiex_path_appends_undefined :
    (wiexRun "cargo.exe" [] envPathOnly false false).childEnv "PATH" =
        some "/usr/bin:undefined" ∧
      (wiexRun "cargo.exe" [] envPathOnly false false).childEnv "PATH" ≠
        some "/usr/bin" := by
  constructor
  · rfl
  · intro h
    simp [wiexRun, envPathOnly, templateStr] at h

/-- C5: with PATH and WIEX_PATH both set, the child environment is the
inherited environment with exactly the PATH entry replaced by
inherited path ++ ":" ++ augmentation value; every other variable keeps
its inherited value. -/
theorem child_env_replaces_only_path (command : String)
    (commandArgs : List String) (env : Env) (strict verbose : Bool)
    (p w : String) (hp : env "PATH" = some p)
    (hw : env "WIEX_PATH" = some w) :
    (wiexRun command commandArgs env strict verbose).childEnv "PATH" =
        some (p ++ ":" ++ w) ∧
      ∀ k, k ≠ "PATH" →
        (wiexRun command commandArgs env strict verbose).childEnv k = env k := by
  constructor
  · simp [wiexRun, templateStr, hp, hw]
  · intro k hk
    simp [wiexRun, hk]

theorem child_env_replaces_only_path_witness :
    (envFull "PATH" = some "/usr/bin" ∧
      envFull "WIEX_PATH" = some "/mnt/c/Users/alice/.cargo/bin" ∧
      ((wiexRun "cargo.exe" [] envFull false false).childEnv "PATH" =
          some ("/usr/bin" ++ ":" ++ "/mnt/c/Users/alice/.cargo/bin") ∧
        ∀ k, k ≠ "PATH" →
          (wiexRun "cargo.exe" [] envFull false false).childEnv k = envFull k)) :=
  ⟨rfl, rfl,
    child_env_replaces_only_path "cargo.exe" [] envFull false false
      "/usr/bin" "/mnt/c/Users/alice/.cargo/bin" rfl rfl⟩

/-- C6: when WIEX_PATH is unset the body emits exactly one warning line
with the fixed text, still spawns the child with the given command and
arguments, does not exit the host process, and the wiex call still
resolves, for every strict and verbose value. -/
theorem unset_wiex_path_warns_and_proceeds (command : String)
    (commandArgs : List String) (env : Env) (strict verbose : Bool)
    (h : env "WIEX_PATH" = none) :
    (wiexRun command commandArgs env strict verbose).logs =
        [⟨.warn, wiexPathWarning⟩] ∧
      (wiexRun command commandArgs env strict verbose).childCall =
        ⟨command, commandArgs⟩ ∧
      (wiexRun command commandArgs env strict verbose).hostExit = none ∧
      (wiexRun command commandArgs env strict verbose).returnSettle =
        .resolve := by
  refine ⟨?_, rfl, rfl, rfl⟩
  simp [wiexRun, isFalsy, h]

theorem unset_wiex_path_warns_and_proceeds_witness :
    (envPathOnly "WIEX_PATH" = none ∧
      ((wiexRun "cargo.exe" ["--version"] envPathOnly false true).logs =
          [⟨.warn, wiexPathWarning⟩] ∧
        (wiexRun "cargo.exe" ["--version"] envPathOnly false true).childCall =
          ⟨"cargo.exe", ["--version"]⟩ ∧
        (wiexRun "cargo.exe" ["--version"] envPathOnly false true).hostExit =
          none ∧
        (wiexRun "cargo.exe" ["--version"] envPathOnly false true).returnSettle =
          Settle.resolve)) :=
  ⟨rfl,
    unset_wiex_path_warns_and_proceeds "cargo.exe" ["--version"] envPathOnly
      false true rfl⟩

/-- C7: the close handler never settles the outcome and changes no
state other than logging: with verbose it emits exactly one info line
"process pid closed.", without verbose it does nothing, and in every
case it sets no exit code, builds no promise, and exits nothing. -/
theorem close_event_only_logs (pid : Nat) :
    procOnClose true pid =
        ⟨[⟨.info, "process " ++ toString pid ++ " closed."⟩], none, none, none⟩ ∧
      procOnClose false pid = ⟨[], none, none, none⟩ ∧
      ∀ verbose, (procOnClose verbose pid).exitCodeSet = none ∧
        (procOnClose verbose pid).promiseMade = none ∧
        (procOnClose verbose pid).hostExit = none := by
  refine ⟨rfl, rfl, ?_⟩
  intro verbose
  cases verbose <;> exact ⟨rfl, rfl, rfl⟩

/-- C8: no invocation mutates the host environment: after a run the
host environment equals the one before it, and a second invocation
started from the environment left by a first one derives exactly the
child environment it would derive from the original environment. -/
theorem host_env_never_mutated (env : Env) (c1 c2 : String)
    (a1 a2 : List String) (s1 v1 s2 v2 : Bool) :
    (wiexRun c1 a1 env s1 v1).hostEnvAfter = env ∧
      (wiexRun c2 a2 ((wiexRun c1 a1 env s1 v1).hostEnvAfter) s2 v2).childEnv =
        (wiexRun c2 a2 env s2 v2).childEnv :=
  ⟨rfl, rfl⟩

/-- C9: if every token before a is a known tool flag and a is not, the
scan returns a as the command and every later token verbatim, in order,
as the command arguments, with no further tool-flag parsing. -/
theorem first_non_flag_becomes_command (pre : List String) (a : String)
    (rest : List String) (hpre : ∀ x ∈ pre, x ∈ WIEX_OPTIONS)
    (ha : a ∉ WIEX_OPTIONS) :
    parseArgs (pre ++ a :: rest) = ⟨pre, some a, some rest⟩ := by
  induction pre with
  | nil => simp [parseArgs, ha]
  | cons x xs ih =>
      have hx : x ∈ WIEX_OPTIONS := hpre x (List.mem_cons_self x xs)
      have hxs : ∀ y ∈ xs, y ∈ WIEX_OPTIONS := fun y hy =>
        hpre y (List.mem_cons_of_mem x hy)
      simp [parseArgs, hx, ih hxs]

theorem first_non_flag_becomes_command_witness :
    ((∀ x ∈ ["--strict"], x ∈ WIEX_OPTIONS) ∧
      "cmd.exe" ∉ WIEX_OPTIONS ∧
      parseArgs (["--strict"] ++ "cmd.exe" :: ["--verbose", "-x"]) =
        ⟨["--strict"], some "cmd.exe", some ["--verbose", "-x"]⟩) :=
  ⟨by decide, by decide,
    first_non_flag_becomes_command ["--strict"] "cmd.exe" ["--verbose", "-x"]
      (by decide) (by decide)⟩

/-- C10: the pre-flight lookup is spawned with the single program
string "where " ++ command and an empty argument vector, which differs
from spawning the utility "where" with the command as its argument. -/
theorem resolver_spawn_embeds_command (command : String)
    (commandArgs : List String) (env : Env) (strict verbose : Bool) :
    (wiexRun command commandArgs env strict verbose).resolverCall =
        ⟨"where " ++ command, []⟩ ∧
      (wiexRun command commandArgs env strict verbose).resolverCall ≠
        ⟨"where", [command]⟩ := by
  refine ⟨rfl, ?_⟩
  intro h
  have := congrArg SpawnCall.args h
  simp [wiexRun] at this

end Wiex
